import Mathlib

/-
Verification of the raspyman admin console (src/raspyman) against its
specification.  The development shallowly embeds the API-client layer
(raspyman/utils.py), the generic CRUD list component
(raspyman/components/crud_list.py), the page controllers
(raspyman/pages/users_page.py, directory_page.py, dashboard_page.py) and the
settings store (raspyman/data_models.py).

Modelling conventions:
- An HTTP GET is summarised by a `FetchOutcome`: the server was unreachable
  (httpx.RequestError, including timeouts), it answered with a non-2xx status
  (raise_for_status throws httpx.HTTPStatusError), the 2xx body failed to
  parse as JSON, or it answered 2xx with a parsed JSON body.  Writes use
  `WriteOutcome`, which carries the raw status code because several write
  helpers inspect it directly instead of calling raise_for_status.
- Every client function returns its result paired with the list of endpoints
  it requested, so that not issuing a network request is expressible.
- The Python dataclasses declare typed fields (str, int, bool) but the
  deserialisers copy dictionary values through unchecked.  The embedding keeps
  the declared field types and coerces at the boundary: a JSON value of the
  declared shape is taken as is, anything else becomes the type default.  No
  claim below depends on an input where this coercion differs from the
  untyped pass-through.
- Where the Python code would raise an uncaught exception on a malformed
  element value outside every try block (list-comprehension element access in
  fetch_users and fetch_sessions), the embedding totalises with the type
  default; no claim quantifies over those inputs.  Element conversions that
  sit inside a try block (fetch_chat_rooms, fetch_directory_categories,
  fetch_user_sessions) are modelled faithfully: a non-object element makes
  the whole call return the failure sentinel.
-/

/-- JSON values as returned by response.json(). -/
inductive Json where
  | null : Json
  | bool (b : Bool) : Json
  | num (n : Int) : Json
  | str (s : String) : Json
  | arr (elems : List Json) : Json
  | obj (fields : List (String × Json)) : Json

/-- First binding of a key in an object, mirroring Python dict lookup
(dict keys are unique, so first-match is exact). -/
def Json.lookupField : List (String × Json) → String → Option Json
  | [], _ => none
  | (k, v) :: rest, key => if k = key then some v else Json.lookupField rest key

/-- dict.get(key, default) for a str-typed dataclass field. -/
def Json.getS (fields : List (String × Json)) (key : String) (dflt : String) : String :=
  match Json.lookupField fields key with
  | some (Json.str s) => s
  | _ => dflt

/-- dict.get(key, default) for an int-typed dataclass field. -/
def Json.getI (fields : List (String × Json)) (key : String) (dflt : Int) : Int :=
  match Json.lookupField fields key with
  | some (Json.num n) => n
  | _ => dflt

/-- dict.get(key, default) for a bool-typed dataclass field. -/
def Json.getB (fields : List (String × Json)) (key : String) (dflt : Bool) : Bool :=
  match Json.lookupField fields key with
  | some (Json.bool b) => b
  | _ => dflt

/-- dict.get(key, None) for an Optional[str] dataclass field. -/
def Json.getOptS (fields : List (String × Json)) (key : String) : Option String :=
  match Json.lookupField fields key with
  | some (Json.str s) => some s
  | _ => none

/-- dict.get(key, []) for a list-typed field (ChatRoom.participants). -/
def Json.getArr (fields : List (String × Json)) (key : String) : List Json :=
  match Json.lookupField fields key with
  | some (Json.arr xs) => xs
  | _ => []

/-- Python dict item assignment: d[key] = v overwrites any previous binding. -/
def Json.setField (fields : List (String × Json)) (key : String) (v : Json) :
    List (String × Json) :=
  (key, v) :: fields.filter (fun p => p.1 != key)

/-- Whether a JSON value is an object (isinstance(x, dict)). -/
def Json.isObj : Json → Bool
  | Json.obj _ => true
  | _ => false

/-- Coerce a present dictionary value to the declared int type. -/
def Json.asIntD (j : Json) (dflt : Int) : Int :=
  match j with
  | Json.num n => n
  | _ => dflt

/-- Outcome of one HTTP GET issued by the client. -/
inductive FetchOutcome where
  | unreachable : FetchOutcome
  | httpError (code : Nat) : FetchOutcome
  | badBody : FetchOutcome
  | ok (body : Json) : FetchOutcome

/-- Outcome of one HTTP write (POST/PUT/PATCH/DELETE): transport failure or a
response with the given status code. -/
inductive WriteOutcome where
  | unreachable : WriteOutcome
  | status (code : Nat) : WriteOutcome
deriving DecidableEq, Repr

/-- httpx Response.is_success: the 2xx range.  raise_for_status raises for
every response outside it. -/
def is2xx (code : Nat) : Bool :=
  200 ≤ code && code < 300

-- Entity models (raspyman/data_models.py)

/-- data_models.User. -/
structure User where
  id : String
  screen_name : String
  is_icq : Bool
  suspended_status : Option String := none
  profile : Option String := none
  email_address : Option String := none
  confirmed : Bool := false
deriving DecidableEq, Repr

/-- data_models.Session.  The dataclass declares online_seconds and
idle_seconds as float; JSON numbers are modelled as Int here. -/
structure Session where
  id : String
  screen_name : String
  online_seconds : Int
  away_message : String
  idle_seconds : Int
  is_icq : Bool
  remote_addr : String
  remote_port : Int
deriving DecidableEq, Repr

/-- data_models.ChatRoom. -/
structure ChatRoom where
  name : String
  create_time : String
  participants : List Json
  creator_id : Option String := none

/-- data_models.Category. -/
structure Category where
  id : Int
  name : String
deriving DecidableEq, Repr

/-- data_models.Keyword. -/
structure Keyword where
  id : Int
  name : String
  category_id : Int := 0
deriving DecidableEq, Repr

-- API client (raspyman/utils.py)

/-- utils.fetch_from_api: GET one endpoint; None when no base URL is
configured (checked before the request is sent), on transport error, on
non-2xx status, or when the body fails to parse; the parsed JSON otherwise.
The second component lists the endpoints actually requested. -/
def fetch_from_api (api_url : String) (endpoint : String) (r : FetchOutcome) :
    Option Json × List String :=
  if api_url = "" then (none, [])
  else
    match r with
    | FetchOutcome.ok body => (some body, [endpoint])
    | _ => (none, [endpoint])

/-- Element conversion in utils.fetch_users (lines 678-683). -/
def userOfJson : Json → User
  | Json.obj fields =>
      { id := Json.getS fields "id" ""
        screen_name := Json.getS fields "screen_name" ""
        is_icq := Json.getB fields "is_icq" false
        suspended_status := Json.getOptS fields "suspended_status" }
  | _ => { id := "", screen_name := "", is_icq := false }

/-- utils.fetch_users: a list payload is converted; any other payload logs
"Invalid response format" and falls through to return None. -/
def fetch_users (api_url : String) (r : FetchOutcome) :
    Option (List User) × List String :=
  if api_url = "" then (none, [])
  else
    match fetch_from_api api_url "/user" r with
    | (some (Json.arr elems), log) => (some (elems.map userOfJson), log)
    | (_, log) => (none, log)

/-- Element conversion shared by utils.fetch_sessions and
utils.fetch_user_sessions. -/
def sessionOfJson : Json → Session
  | Json.obj fields =>
      { id := Json.getS fields "id" ""
        screen_name := Json.getS fields "screen_name" ""
        online_seconds := Json.getI fields "online_seconds" 0
        away_message := Json.getS fields "away_message" ""
        idle_seconds := Json.getI fields "idle_seconds" 0
        is_icq := Json.getB fields "is_icq" false
        remote_addr := Json.getS fields "remote_addr" ""
        remote_port := Json.getI fields "remote_port" 0 }
  | _ =>
      { id := "", screen_name := "", online_seconds := 0, away_message := ""
        idle_seconds := 0, is_icq := false, remote_addr := "", remote_port := 0 }

/-- utils.fetch_sessions: a dict with a "sessions" key is converted; a dict
without the key or a bare list yields the empty list; any other payload falls
through to return None. -/
def fetch_sessions (api_url : String) (r : FetchOutcome) :
    Option (List Session) × List String :=
  if api_url = "" then (none, [])
  else
    match fetch_from_api api_url "/session" r with
    | (some (Json.obj fields), log) =>
        match Json.lookupField fields "sessions" with
        | some (Json.arr elems) => (some (elems.map sessionOfJson), log)
        | some _ => (some [], log)
        | none => (some [], log)
    | (some (Json.arr _), log) => (some [], log)
    | (some _, log) => (none, log)
    | (none, log) => (none, log)

/-- utils.fetch_active_sessions: derives a session count from the /session
payload; an unrecognised but successfully parsed payload counts as 0. -/
def fetch_active_sessions (api_url : String) (r : FetchOutcome) :
    Option Int × List String :=
  if api_url = "" then (none, [])
  else
    match fetch_from_api api_url "/session" r with
    | (none, log) => (none, log)
    | (some data, log) =>
        match data with
        | Json.obj fields =>
            match Json.lookupField fields "sessions" with
            | some (Json.arr elems) => (some (Int.ofNat elems.length), log)
            | some _ => (none, log)
            | none =>
                match Json.lookupField fields "count" with
                | some (Json.num n) => (some n, log)
                | some _ => (none, log)
                | none => (some 0, log)
        | Json.arr elems => (some (Int.ofNat elems.length), log)
        | Json.num n => (some n, log)
        | _ => (some 0, log)

/-- Element conversion in utils.fetch_chat_rooms (lines 199-203). -/
def chatRoomOfJson : Json → ChatRoom
  | Json.obj fields =>
      { name := Json.getS fields "name" ""
        create_time := Json.getS fields "create_time" ""
        participants := Json.getArr fields "participants" }
  | _ => { name := "", create_time := "", participants := [] }

/-- utils.fetch_chat_rooms: GET /chat/room/public; a list payload is
converted inside the try block (a non-object element raises and is caught,
yielding None); a non-list payload logs a warning and returns the empty
list. -/
def fetch_chat_rooms (api_url : String) (r : FetchOutcome) :
    Option (List ChatRoom) × List String :=
  if api_url = "" then (none, [])
  else
    match r with
    | FetchOutcome.ok (Json.arr elems) =>
        if elems.all Json.isObj then
          (some (elems.map chatRoomOfJson), ["/chat/room/public"])
        else (none, ["/chat/room/public"])
    | FetchOutcome.ok _ => (some [], ["/chat/room/public"])
    | _ => (none, ["/chat/room/public"])

/-- Element conversion in utils.fetch_directory_categories (lines 321-324). -/
def categoryOfJson : Json → Category
  | Json.obj fields =>
      { id := Json.getI fields "id" 0
        name := Json.getS fields "name" "" }
  | _ => { id := 0, name := "" }

/-- utils.fetch_directory_categories: GET /directory/category; a list payload
is converted inside the try block (a non-object element raises and is caught,
yielding None); a non-list payload returns the empty list. -/
def fetch_directory_categories (api_url : String) (r : FetchOutcome) :
    Option (List Category) × List String :=
  if api_url = "" then (none, [])
  else
    match r with
    | FetchOutcome.ok (Json.arr elems) =>
        if elems.all Json.isObj then
          (some (elems.map categoryOfJson), ["/directory/category"])
        else (none, ["/directory/category"])
    | FetchOutcome.ok _ => (some [], ["/directory/category"])
    | _ => (none, ["/directory/category"])

/-- Endpoint for the keywords of one category. -/
def kwEndpoint (categoryId : Int) : String :=
  "/directory/category/" ++ toString categoryId ++ "/keyword"

/-- category_id_value in utils.fetch_directory_keywords (lines 454 and 528):
keyword.get("category_id", keyword.get("parent", 0)), coerced to the declared
int type. -/
def keywordCategoryId (fields : List (String × Json)) : Int :=
  match Json.lookupField fields "category_id" with
  | some v => Json.asIntD v 0
  | none =>
      match Json.lookupField fields "parent" with
      | some v => Json.asIntD v 0
      | none => 0

/-- One keyword record from a raw dictionary (lines 455-459 and 529-533). -/
def keywordOfJson (fields : List (String × Json)) : Keyword :=
  { id := Json.getI fields "id" 0
    name := Json.getS fields "name" ""
    category_id := keywordCategoryId fields }

/-- The conversion loop of utils.fetch_directory_keywords: non-dict entries
are skipped, dict entries become Keyword records. -/
def convertKeywords (raw : List Json) : List Keyword :=
  raw.filterMap (fun j =>
    match j with
    | Json.obj fields => some (keywordOfJson fields)
    | _ => none)

/-- The directory portion of the remote server, as seen by
utils.fetch_directory_keywords: the response of each per-category keyword
endpoint and the response of the category list endpoint. -/
structure DirServer where
  keywordResp : Int → FetchOutcome
  categoriesResp : FetchOutcome

/-- Tags each dictionary item of a per-category response with its source
category id (item_with_category["category_id"] = category_id, lines 481-485
and 507-511); non-dict items are skipped. -/
def tagWithCategory (elems : List Json) (categoryId : Int) : List Json :=
  elems.filterMap (fun j =>
    match j with
    | Json.obj fields =>
        some (Json.obj (Json.setField fields "category_id" (Json.num categoryId)))
    | _ => none)

/-- Lines 493-518 of utils.fetch_directory_keywords: what one category
contributes to all_keywords in the fallback path - its endpoint's list
payload with every dictionary item tagged by this category's id, or nothing
when the request fails (the inner try swallows the error and continues with
the other categories) or the payload is not a list. -/
def categoryKeywordBlock (srv : DirServer) (c : Category) : List Json :=
  match srv.keywordResp c.id with
  | FetchOutcome.ok (Json.arr elems) => tagWithCategory elems c.id
  | _ => []

/-- Lines 434-445 of utils.fetch_directory_keywords: what the aggregate
category-0 endpoint contributes to all_keywords - the payload when it is a
2xx JSON list, nothing when the request fails (the inner try swallows the
error) or the payload is not a list. -/
def aggregateKeywordList (srv : DirServer) : List Json :=
  match srv.keywordResp 0 with
  | FetchOutcome.ok (Json.arr elems) => elems
  | _ => []

/-- utils.fetch_directory_keywords.  With a concrete category id the request
is not wrapped in an inner try, so any failure reaches the outer handler and
yields None.  With no category id the aggregate category-0 endpoint is tried
first inside its own try (failures fall through); a non-empty list from it is
converted and returned; otherwise every fetched category is enumerated, each
per-category request inside its own try (failures are skipped), and each
returned dictionary is tagged with the id of the category it was fetched
from. -/
def fetch_directory_keywords (api_url : String) (srv : DirServer)
    (category_id : Option Int) : Option (List Keyword) × List String :=
  if api_url = "" then (none, [])
  else
    match category_id with
    | some cid =>
        match srv.keywordResp cid with
        | FetchOutcome.ok (Json.arr elems) =>
            (some (convertKeywords (tagWithCategory elems cid)), [kwEndpoint cid])
        | FetchOutcome.ok _ => (some [], [kwEndpoint cid])
        | _ => (none, [kwEndpoint cid])
    | none =>
        let aggKeywords : List Json := aggregateKeywordList srv
        if aggKeywords.isEmpty then
          match fetch_directory_categories api_url srv.categoriesResp with
          | (some cats, clog) =>
              if cats.isEmpty then (some [], kwEndpoint 0 :: clog)
              else
                let tagged := (cats.map (categoryKeywordBlock srv)).flatten
                (some (convertKeywords tagged),
                  kwEndpoint 0 :: clog ++ cats.map (fun c => kwEndpoint c.id))
          | (none, clog) => (some [], kwEndpoint 0 :: clog)
        else (some (convertKeywords aggKeywords), [kwEndpoint 0])

/-- utils.fetch_total_users: length of a list payload from /user, None
otherwise. -/
def fetch_total_users (api_url : String) (r : FetchOutcome) :
    Option Int × List String :=
  if api_url = "" then (none, [])
  else
    match fetch_from_api api_url "/user" r with
    | (some (Json.arr elems), log) => (some (Int.ofNat elems.length), log)
    | (_, log) => (none, log)

/-- utils.fetch_user_details: a non-empty dict payload is converted (an empty
dict is falsy in Python, so it also yields None). -/
def fetch_user_details (api_url : String) (screen_name : String)
    (r : FetchOutcome) : Option User × List String :=
  if api_url = "" then (none, [])
  else
    match fetch_from_api api_url ("/user/" ++ screen_name ++ "/account") r with
    | (some (Json.obj fields), log) =>
        if fields.isEmpty then (none, log)
        else
          (some { id := Json.getS fields "id" ""
                  screen_name := Json.getS fields "screen_name" ""
                  is_icq := Json.getB fields "is_icq" false
                  suspended_status := Json.getOptS fields "suspended_status"
                  profile := Json.getOptS fields "profile"
                  email_address := Json.getOptS fields "email_address"
                  confirmed := Json.getB fields "confirmed" false }, log)
    | (_, log) => (none, log)

/-- utils.fetch_version_info: version fields of a dict payload from /version,
each defaulting to "Unknown". -/
def fetch_version_info (api_url : String) (r : FetchOutcome) :
    Option (String × String × String) × List String :=
  if api_url = "" then (none, [])
  else
    match fetch_from_api api_url "/version" r with
    | (some (Json.obj fields), log) =>
        (some (Json.getS fields "version" "Unknown",
               Json.getS fields "commit" "Unknown",
               Json.getS fields "date" "Unknown"), log)
    | (_, log) => (none, log)

/-- utils.fetch_user_sessions: a dict payload with a "sessions" list is
converted inside the try block (a non-object element or a non-list value
raises and is caught, yielding None); any other non-None payload yields the
empty list. -/
def fetch_user_sessions (api_url : String) (screen_name : String)
    (r : FetchOutcome) : Option (List Session) × List String :=
  if api_url = "" then (none, [])
  else
    match fetch_from_api api_url ("/session/" ++ screen_name) r with
    | (some (Json.obj fields), log) =>
        match Json.lookupField fields "sessions" with
        | some (Json.arr elems) =>
            if elems.all Json.isObj then (some (elems.map sessionOfJson), log)
            else (none, log)
        | some _ => (none, log)
        | none => (some [], log)
    | (some _, log) => (some [], log)
    | (none, log) => (none, log)

-- Write operations (raspyman/utils.py)

/-- utils.create_chat_room: POST /chat/room/public, raise_for_status then
True, so success is exactly the 2xx range. -/
def create_chat_room (api_url : String) (room_name : String) (w : WriteOutcome) :
    Bool × List String :=
  if api_url = "" then (false, [])
  else
    match w with
    | WriteOutcome.status c => (is2xx c, ["POST /chat/room/public"])
    | WriteOutcome.unreachable => (false, ["POST /chat/room/public"])

/-- utils.delete_chat_room: DELETE without raise_for_status; success is the
literal check status_code in (200, 204). -/
def delete_chat_room (api_url : String) (room_name : String) (w : WriteOutcome) :
    Bool × List String :=
  if api_url = "" then (false, [])
  else
    match w with
    | WriteOutcome.status c =>
        (c == 200 || c == 204, ["DELETE /chat/room/public/" ++ room_name])
    | WriteOutcome.unreachable => (false, ["DELETE /chat/room/public/" ++ room_name])

/-- utils.create_directory_category: raise_for_status then True. -/
def create_directory_category (api_url : String) (category_name : String)
    (w : WriteOutcome) : Bool × List String :=
  if api_url = "" then (false, [])
  else
    match w with
    | WriteOutcome.status c => (is2xx c, ["POST /directory/category"])
    | WriteOutcome.unreachable => (false, ["POST /directory/category"])

/-- utils.delete_directory_category: status_code in (200, 204). -/
def delete_directory_category (api_url : String) (category_id : Int)
    (w : WriteOutcome) : Bool × List String :=
  if api_url = "" then (false, [])
  else
    match w with
    | WriteOutcome.status c =>
        (c == 200 || c == 204, ["DELETE /directory/category/" ++ toString category_id])
    | WriteOutcome.unreachable =>
        (false, ["DELETE /directory/category/" ++ toString category_id])

/-- utils.create_directory_keyword: raise_for_status then True. -/
def create_directory_keyword (api_url : String) (keyword_name : String)
    (parent_category_id : Int) (w : WriteOutcome) : Bool × List String :=
  if api_url = "" then (false, [])
  else
    match w with
    | WriteOutcome.status c => (is2xx c, ["POST /directory/keyword"])
    | WriteOutcome.unreachable => (false, ["POST /directory/keyword"])

/-- utils.delete_directory_keyword: status_code in (200, 204). -/
def delete_directory_keyword (api_url : String) (keyword_id : Int)
    (w : WriteOutcome) : Bool × List String :=
  if api_url = "" then (false, [])
  else
    match w with
    | WriteOutcome.status c =>
        (c == 200 || c == 204, ["DELETE /directory/keyword/" ++ toString keyword_id])
    | WriteOutcome.unreachable =>
        (false, ["DELETE /directory/keyword/" ++ toString keyword_id])

/-- utils.create_user: POST /user, raise_for_status then True. -/
def create_user (api_url : String) (screen_name : String) (password : String)
    (w : WriteOutcome) : Bool × List String :=
  if api_url = "" then (false, [])
  else
    match w with
    | WriteOutcome.status c => (is2xx c, ["POST /user"])
    | WriteOutcome.unreachable => (false, ["POST /user"])

/-- utils.update_user_status: PATCH with raise_for_status (non-2xx fails)
followed by the literal check status_code in (200, 204). -/
def update_user_status (api_url : String) (screen_name : String)
    (suspended_status : Option String) (w : WriteOutcome) : Bool × List String :=
  if api_url = "" then (false, [])
  else
    match w with
    | WriteOutcome.status c =>
        (if is2xx c then c == 200 || c == 204 else false,
          ["PATCH /user/" ++ screen_name ++ "/account"])
    | WriteOutcome.unreachable =>
        (false, ["PATCH /user/" ++ screen_name ++ "/account"])

/-- utils.delete_user: body-carrying DELETE; status_code in (200, 204). -/
def delete_user (api_url : String) (screen_name : String) (w : WriteOutcome) :
    Bool × List String :=
  if api_url = "" then (false, [])
  else
    match w with
    | WriteOutcome.status c => (c == 200 || c == 204, ["DELETE /user"])
    | WriteOutcome.unreachable => (false, ["DELETE /user"])

/-- utils.reset_user_password: PUT /user/password; status_code in (200, 204). -/
def reset_user_password (api_url : String) (screen_name : String)
    (new_password : String) (w : WriteOutcome) : Bool × List String :=
  if api_url = "" then (false, [])
  else
    match w with
    | WriteOutcome.status c => (c == 200 || c == 204, ["PUT /user/password"])
    | WriteOutcome.unreachable => (false, ["PUT /user/password"])

/-- utils.send_instant_message: POST /instant-message, raise_for_status then
True. -/
def send_instant_message (api_url : String) (from_screen_name : String)
    (to_screen_name : String) (message_text : String) (w : WriteOutcome) :
    Bool × List String :=
  if api_url = "" then (false, [])
  else
    match w with
    | WriteOutcome.status c => (is2xx c, ["POST /instant-message"])
    | WriteOutcome.unreachable => (false, ["POST /instant-message"])

-- Generic CRUD list component (raspyman/components/crud_list.py)

/-- The irregular-plural table of CRUDList._get_singular_form (lines 85-94). -/
def irregular_plurals : List (String × String) :=
  [("categories", "category"),
   ("properties", "property"),
   ("activities", "activity"),
   ("histories", "history"),
   ("entries", "entry"),
   ("countries", "country"),
   ("policies", "policy")]

/-- Python str.lower(), character by character (titles here are ASCII). -/
def pyLower (s : String) : String :=
  String.mk (s.data.map Char.toLower)

/-- Python str.capitalize(): first character uppercased, the rest lowered. -/
def pyCapitalize (s : String) : String :=
  match s.data with
  | [] => ""
  | c :: rest => String.mk (Char.toUpper c :: rest.map Char.toLower)

/-- Python str.endswith("s"): the final character is an "s". -/
def pyEndsWithS (s : String) : Bool :=
  match s.data.getLast? with
  | some c => c == 's'
  | none => false

/-- plural[0].isupper(), written on the character list. -/
def firstIsUpper (s : String) : Bool :=
  match s.data with
  | c :: _ => c.isUpper
  | [] => false

/-- Python str[:-1]: drop the final character. -/
def pyDropLast (s : String) : String :=
  String.mk s.data.dropLast

/-- CRUDList._get_singular_form: the lowercased word is looked up in the
irregular-plural table first (preserving the case of the first letter);
otherwise a trailing "s" is stripped; otherwise the word is returned as
is. -/
def get_singular_form (plural : String) : String :=
  let lowercase_plural := pyLower plural
  match List.lookup lowercase_plural irregular_plurals with
  | some singular =>
      if firstIsUpper plural then pyCapitalize singular else singular
  | none =>
      if pyEndsWithS lowercase_plural then pyDropLast plural else plural

/-- Python str.split(" "): split at every single space, keeping empty
pieces. -/
def splitOnSpace : List Char → List (List Char)
  | [] => [[]]
  | c :: rest =>
      match splitOnSpace rest with
      | [] => [[c]]
      | w :: ws => if c == ' ' then [] :: w :: ws else (c :: w) :: ws

/-- The empty-state item name derived from the list title in CRUDList.build
(lines 240-250): for a multi-word title only the last word is singularised;
a single-word title is singularised whole. -/
def empty_state_item_name (title : String) : String :=
  if title.data.contains ' ' then
    let words := (splitOnSpace title.data).map String.mk
    let last_word := words.getLastD ""
    let singular_last_word := get_singular_form last_word
    String.intercalate " " (words.dropLast ++ [singular_last_word])
  else get_singular_form title

/-- How a closure created in the item loop of CRUDList.build captures the
loop variable.  The source binds the item through lambda default arguments
(on_press=lambda item=item, cb=callback: ..., line 159), which freezes the
value at creation time; plain closure capture would instead read the loop
variable at call time and see its final value. -/
inductive CaptureMode where
  | defaultArg : CaptureMode
  | lateBinding : CaptureMode
deriving DecidableEq, Repr

/-- Capture mode used by CRUDList.build (line 159). -/
def crudListCaptureMode : CaptureMode := CaptureMode.defaultArg

/-- One per-item action-button configuration (entries of
CRUDList.action_buttons, read at lines 143-149).  `callback` is None when the
configuration has no "callback" entry, in which case no button is built. -/
structure ActionButtonConfig (T A : Type) where
  icon : String := "material/edit"
  color : String := "primary"
  tooltip : String := "Action"
  is_sensitive : Bool := true
  callback : Option (T → A) := none

/-- An action button as rendered for one row: the configured callback together
with the item value frozen into the lambda default argument. -/
structure RowButton (T A : Type) where
  icon : String
  color : String
  tooltip : String
  is_sensitive : Bool
  boundItem : T
  boundCallback : T → A

/-- Pressing a rendered button once the render loop has finished.  Under
default-argument capture the callback receives the frozen item; under late
binding it would receive the final value of the loop variable. -/
def RowButton.press {T A : Type} (mode : CaptureMode) (b : RowButton T A)
    (finalLoopValue : T) : A :=
  match mode with
  | CaptureMode.defaultArg => b.boundCallback b.boundItem
  | CaptureMode.lateBinding => b.boundCallback finalLoopValue

/-- One rendered item row of CRUDList.build. -/
structure RenderedRow (T A : Type) where
  item : T
  buttons : List (RowButton T A)

/-- The item loop of CRUDList.build (lines 130-191): one row per item, with
one button per action-button configuration that carries a callback, each
button freezing the current item via its lambda default arguments. -/
def renderItemRows {T A : Type} (items : List T)
    (action_buttons : List (ActionButtonConfig T A)) : List (RenderedRow T A) :=
  items.map (fun item =>
    { item := item
      buttons := action_buttons.filterMap (fun cfg =>
        match cfg.callback with
        | some cb =>
            some { icon := cfg.icon
                   color := cfg.color
                   tooltip := cfg.tooltip
                   is_sensitive := cfg.is_sensitive
                   boundItem := item
                   boundCallback := cb }
        | none => none) })

-- Users page (raspyman/pages/users_page.py)

/-- The local-state patch of UsersPage.on_press_delete_user after a successful
delete (line 91): keep every user whose screen_name differs from the deleted
one. -/
def users_after_delete (users : List User) (screen_name : String) : List User :=
  users.filter (fun user => user.screen_name != screen_name)

-- Directory page (raspyman/pages/directory_page.py)

/-- The local-cache patch of DirectoryPage.on_delete_keyword after a
successful delete (lines 200-203): keep every keyword whose id differs from
the deleted one. -/
def keywords_after_delete (keywords : List Keyword) (keyword_id : Int) :
    List Keyword :=
  keywords.filter (fun k => k.id != keyword_id)

/-- The directory page state relevant to category selection and deletion. -/
structure DirectoryPageState where
  categories : List Category
  selected_category_id : Int

/-- The SwitcherBar values built in DirectoryPage.build (lines 528-536):
Uncategorized (id 0) first, then the fetched categories in order. -/
def switcher_values (page : DirectoryPageState) : List Int :=
  0 :: page.categories.map (fun c => c.id)

/-- is_sensitive of the delete-category IconButton in DirectoryPage.build
(line 558): enabled only when the selection is a real category. -/
def delete_category_button_sensitive (page : DirectoryPageState) : Bool :=
  page.selected_category_id != 0

/-- DirectoryPage.delete_current_category (lines 473-490): returns the
category handed to the delete flow, or none when no delete is started.  The
guard at line 479 returns immediately for the Uncategorized selection, before
any API call. -/
def delete_current_category (page : DirectoryPageState) : Option Category :=
  if page.selected_category_id = 0 then none
  else page.categories.find? (fun c => c.id == page.selected_category_id)

-- Dashboard page (raspyman/pages/dashboard_page.py)

/-- The dashboard stat state: four values with loading and error flags, plus
the re-entrancy flag of the grace-period handler. -/
structure DashboardState where
  active_sessions : Int
  chat_rooms : Int
  total_users : Int
  version_info : String
  loading_sessions : Bool
  loading_chats : Bool
  loading_users : Bool
  loading_version : Bool
  has_error_sessions : Bool
  has_error_chats : Bool
  has_error_users : Bool
  has_error_version : Bool
  is_loading_timeout : Bool
deriving DecidableEq, Repr

/-- Lines 566-570 of DashboardPage._set_loading_timeout: force every loading
flag to False, regardless of API call status. -/
def dashboard_clear_loading (s : DashboardState) : DashboardState :=
  { s with loading_sessions := false, loading_chats := false,
           loading_users := false, loading_version := false }

/-- Lines 576-591 of DashboardPage._set_loading_timeout: for each stat whose
loading flag is (still) set, mark it errored and reset its value.  The
conditions read the loading flags of the state they are given. -/
def dashboard_mark_stuck (s : DashboardState) : DashboardState :=
  let s3 := if s.loading_sessions then
      { s with has_error_sessions := true, active_sessions := 0 } else s
  let s4 := if s3.loading_chats then
      { s3 with has_error_chats := true, chat_rooms := 0 } else s3
  let s5 := if s4.loading_users then
      { s4 with has_error_users := true, total_users := 0 } else s4
  if s5.loading_version then
      { s5 with has_error_version := true, version_info := "Unknown" } else s5

/-- Result of one best-effort 3-second re-fetch: some value when the awaited
fetch returned non-None in time, none when it returned None, timed out or
raised. -/
structure RefetchOutcomes where
  sessions : Option Int
  chats : Option Int
  users : Option Int
  version : Option String

/-- Lines 593-644 of DashboardPage._set_loading_timeout: one fresh attempt
per stat with a 3-second timeout; success stores the value and clears the
error flag, failure zeroes the value and sets it. -/
def dashboard_refetch (s : DashboardState) (o : RefetchOutcomes) : DashboardState :=
  let s1 := match o.sessions with
    | some v => { s with active_sessions := v, has_error_sessions := false }
    | none => { s with active_sessions := 0, has_error_sessions := true }
  let s2 := match o.chats with
    | some v => { s1 with chat_rooms := v, has_error_chats := false }
    | none => { s1 with chat_rooms := 0, has_error_chats := true }
  let s3 := match o.users with
    | some v => { s2 with total_users := v, has_error_users := false }
    | none => { s2 with total_users := 0, has_error_users := true }
  match o.version with
  | some v => { s3 with version_info := v, has_error_version := false }
  | none => { s3 with version_info := "Unknown", has_error_version := true }

/-- DashboardPage._set_loading_timeout after the 5-second sleep (lines
566-649): loading flags are cleared first; then, unless the handler is
already running, the re-entrancy flag is set, stats that are still loading
are (supposedly) marked errored, one best-effort re-fetch runs, and the
re-entrancy flag is cleared. -/
def set_loading_timeout_step (s : DashboardState) (o : RefetchOutcomes) :
    DashboardState :=
  let s1 := dashboard_clear_loading s
  if s1.is_loading_timeout then s1
  else
    { dashboard_refetch (dashboard_mark_stuck { s1 with is_loading_timeout := true }) o
      with is_loading_timeout := false }

-- Settings store (raspyman/data_models.py and dashboard handlers)

/-- RasApiSettings.__post_init__ (lines 121-129): a missing or known-bad URL
is replaced by the default. -/
def post_init_api_url (api_url : String) : String :=
  if api_url = "" || api_url = "http://localhost:500" then "http://localhost:5000"
  else api_url

/-- DashboardPage.on_api_url_change (lines 44-53): the entered text is stored,
with the single known-bad URL rewritten. -/
def on_api_url_change (text : String) : String :=
  if text = "http://localhost:500" then "http://localhost:5000" else text

/-- DashboardPage.on_api_url_confirm (lines 82-98), URL portion: identical
rewrite of the entered text before storing. -/
def on_api_url_confirm (text : String) : String :=
  if text = "http://localhost:500" then "http://localhost:5000" else text

/-- DashboardPage.on_save_api_settings (lines 124-136), URL portion: a missing
or known-bad stored URL is replaced before re-saving. -/
def on_save_api_settings (api_url : String) : String :=
  if api_url = "" || api_url = "http://localhost:500" then "http://localhost:5000"
  else api_url

/-- DashboardPage._validate_api_url (lines 309-315), URL portion. -/
def validate_api_url (api_url : String) : String :=
  if api_url = "" || api_url = "http://localhost:500" then "http://localhost:5000"
  else api_url

-- Theorems

/-- Claim C3: every API client function returns its failure sentinel (None
for reads, False for writes) without issuing any network request when no API
base URL is configured: with the empty base URL the result is the sentinel
and the list of requested endpoints is empty, for every possible network
behaviour and every argument. -/
theorem c3_no_base_url_no_request :
    ∀ (r : FetchOutcome) (w : WriteOutcome) (srv : DirServer) (cid : Option Int)
      (sn pw txt nm ep : String) (i : Int) (st : Option String),
    fetch_from_api "" ep r = (none, []) ∧
    fetch_users "" r = (none, []) ∧
    fetch_sessions "" r = (none, []) ∧
    fetch_active_sessions "" r = (none, []) ∧
    fetch_chat_rooms "" r = (none, []) ∧
    fetch_directory_categories "" r = (none, []) ∧
    fetch_directory_keywords "" srv cid = (none, []) ∧
    fetch_total_users "" r = (none, []) ∧
    fetch_user_details "" sn r = (none, []) ∧
    fetch_version_info "" r = (none, []) ∧
    fetch_user_sessions "" sn r = (none, []) ∧
    create_chat_room "" nm w = (false, []) ∧
    delete_chat_room "" nm w = (false, []) ∧
    create_directory_category "" nm w = (false, []) ∧
    delete_directory_category "" i w = (false, []) ∧
    create_directory_keyword "" nm i w = (false, []) ∧
    delete_directory_keyword "" i w = (false, []) ∧
    create_user "" sn pw w = (false, []) ∧
    update_user_status "" sn st w = (false, []) ∧
    delete_user "" sn w = (false, []) ∧
    reset_user_password "" sn pw w = (false, []) ∧
    send_instant_message "" sn sn txt w = (false, []) := by
  intro r w srv cid sn pw txt nm ep i st
  and_intros <;> rfl

/-- Claim C5: the singular-label derivation checks the fixed irregular-plural
table first (categories, properties, activities, histories, entries,
countries, policies), matching case-insensitively and preserving the case of
the first letter, before falling back to stripping a trailing "s"; for
multi-word titles only the last word is singularised.  Stated on the full
table in both capitalisations, on the four examples of the specification,
and as a general fallback law for words outside the table. -/
theorem c5_singular_label_derivation :
    (get_singular_form "categories" = "category" ∧
     get_singular_form "Categories" = "Category" ∧
     get_singular_form "properties" = "property" ∧
     get_singular_form "Properties" = "Property" ∧
     get_singular_form "activities" = "activity" ∧
     get_singular_form "Activities" = "Activity" ∧
     get_singular_form "histories" = "history" ∧
     get_singular_form "Histories" = "History" ∧
     get_singular_form "entries" = "entry" ∧
     get_singular_form "Entries" = "Entry" ∧
     get_singular_form "countries" = "country" ∧
     get_singular_form "Countries" = "Country" ∧
     get_singular_form "policies" = "policy" ∧
     get_singular_form "Policies" = "Policy" ∧
     empty_state_item_name "Categories" = "Category" ∧
     empty_state_item_name "Directory Categories" = "Directory Category" ∧
     empty_state_item_name "Chat Rooms" = "Chat Room" ∧
     empty_state_item_name "Histories" = "History") ∧
    (∀ t : String, List.lookup (pyLower t) irregular_plurals = none →
      pyEndsWithS (pyLower t) = true → get_singular_form t = pyDropLast t) := by
  refine ⟨by decide, ?_⟩
  intro t h1 h2
  simp [get_singular_form, h1, h2]

/-- Witness for claim C5: the general fallback law applied to the concrete
title word "Sessions", which is outside the irregular table and ends in
"s". -/
theorem c5_singular_label_derivation_witness :
    get_singular_form "Sessions" = "Session" := by
  have e := c5_singular_label_derivation.2 "Sessions" (by decide) (by decide)
  simpa using e

/-- Claim C7: in the directory page, category id 0 (Uncategorized) is always
the first entry of the category switcher, whatever categories the server
returned; when the selected category id is 0 the delete path starts no delete
(no API call), and the delete-category button is rendered insensitive. -/
theorem c7_uncategorized_first_and_undeletable :
    ∀ (cats : List Category) (sel : Int),
    (switcher_values { categories := cats, selected_category_id := sel }).head? =
      some 0 ∧
    delete_current_category { categories := cats, selected_category_id := 0 } =
      none ∧
    delete_category_button_sensitive
      { categories := cats, selected_category_id := 0 } = false := by
  intro cats sel
  refine ⟨rfl, ?_, rfl⟩
  simp [delete_current_category]

/-- Claim C9 (code bug): when the grace-period handler fires, the source
first forces every loading flag to False (lines 566-570) and only afterwards
tests those same flags (lines 576-591), so the branches that are supposed to
mark still-loading stats as errored and reset their values can never run:
after the clear-then-mark sequence every error flag and every stat value is
unchanged, for every dashboard state, while the loading flags are all
cleared.  The claim (and the comments in the source) say the stuck stats are
marked errored with their values reset. -/
theorem c9_timeout_never_marks_errors :
    ∀ s : DashboardState,
    (dashboard_mark_stuck
      { dashboard_clear_loading s with is_loading_timeout := true }).has_error_sessions
        = s.has_error_sessions ∧
    (dashboard_mark_stuck
      { dashboard_clear_loading s with is_loading_timeout := true }).has_error_chats
        = s.has_error_chats ∧
    (dashboard_mark_stuck
      { dashboard_clear_loading s with is_loading_timeout := true }).has_error_users
        = s.has_error_users ∧
    (dashboard_mark_stuck
      { dashboard_clear_loading s with is_loading_timeout := true }).has_error_version
        = s.has_error_version ∧
    (dashboard_mark_stuck
      { dashboard_clear_loading s with is_loading_timeout := true }).active_sessions
        = s.active_sessions ∧
    (dashboard_mark_stuck
      { dashboard_clear_loading s with is_loading_timeout := true }).chat_rooms
        = s.chat_rooms ∧
    (dashboard_mark_stuck
      { dashboard_clear_loading s with is_loading_timeout := true }).total_users
        = s.total_users ∧
    (dashboard_mark_stuck
      { dashboard_clear_loading s with is_loading_timeout := true }).version_info
        = s.version_info ∧
    (dashboard_mark_stuck
      { dashboard_clear_loading s with is_loading_timeout := true }).loading_sessions
        = false ∧
    (dashboard_mark_stuck
      { dashboard_clear_loading s with is_loading_timeout := true }).loading_chats
        = false ∧
    (dashboard_mark_stuck
      { dashboard_clear_loading s with is_loading_timeout := true }).loading_users
        = false ∧
    (dashboard_mark_stuck
      { dashboard_clear_loading s with is_loading_timeout := true }).loading_version
        = false := by
  intro s
  and_intros <;> rfl

/-- Counterexample for claim C10: the dashboard URL-change handler stores a
user-entered empty string unchanged (and the confirm handler does the same),
so the settings store can hold an empty API URL, contrary to the claimed
invariant. -/
theorem c10_empty_url_counterexample :
    on_api_url_change "" = "" ∧ on_api_url_confirm "" = "" := ⟨rfl, rfl⟩

/-- Claim C10 as amended: the settings store never holds the exact URL
"http://localhost:500" - initialization, the save handler and the validator
replace it (or an empty value) with "http://localhost:5000", and the change
and confirm handlers rewrite it before storing - but the change and confirm
handlers do not guard against an empty entered URL, so only initialization,
save and validation also rule out the empty string. -/
theorem c10_no_bad_url_amended :
    ∀ (u t : String),
    post_init_api_url u ≠ "http://localhost:500" ∧
    post_init_api_url u ≠ "" ∧
    on_api_url_change t ≠ "http://localhost:500" ∧
    on_api_url_confirm t ≠ "http://localhost:500" ∧
    on_save_api_settings u ≠ "http://localhost:500" ∧
    on_save_api_settings u ≠ "" ∧
    validate_api_url u ≠ "http://localhost:500" ∧
    validate_api_url u ≠ "" := by
  intro u t
  and_intros <;>
    (simp only [post_init_api_url, on_api_url_change, on_api_url_confirm,
      on_save_api_settings, validate_api_url]
     split <;> simp_all)

/-- Claim C8: after a successful delete, the local-state patch removes exactly
the one record whose key matches the deleted item (screen_name for users,
id for keywords) and leaves every other record - including records with the
same display label but a different key - unchanged in place.  Stated for a
list in which the deleted key occurs exactly once, decomposed around its
occurrence. -/
theorem c8_delete_removes_exactly_one :
    (∀ (l1 l2 : List User) (v : User) (name : String),
      v.screen_name = name →
      (∀ u ∈ l1, u.screen_name ≠ name) →
      (∀ u ∈ l2, u.screen_name ≠ name) →
      users_after_delete (l1 ++ v :: l2) name = l1 ++ l2) ∧
    (∀ (l1 l2 : List Keyword) (v : Keyword) (kid : Int),
      v.id = kid →
      (∀ x ∈ l1, x.id ≠ kid) →
      (∀ x ∈ l2, x.id ≠ kid) →
      keywords_after_delete (l1 ++ v :: l2) kid = l1 ++ l2) := by
  constructor
  · intro l1 l2 v name hv h1 h2
    have e1 : l1.filter (fun u => u.screen_name != name) = l1 :=
      List.filter_eq_self.mpr (fun u hu => by simpa using h1 u hu)
    have e2 : l2.filter (fun u => u.screen_name != name) = l2 :=
      List.filter_eq_self.mpr (fun u hu => by simpa using h2 u hu)
    simp [users_after_delete, List.filter_append, List.filter_cons, hv, e1, e2]
  · intro l1 l2 v kid hv h1 h2
    have e1 : l1.filter (fun x => x.id != kid) = l1 :=
      List.filter_eq_self.mpr (fun x hx => by simpa using h1 x hx)
    have e2 : l2.filter (fun x => x.id != kid) = l2 :=
      List.filter_eq_self.mpr (fun x hx => by simpa using h2 x hx)
    simp [keywords_after_delete, List.filter_append, List.filter_cons, hv, e1, e2]

/-- Witness for claim C8: deleting keyword id 1 from a cache holding two
keywords that share the display label "chess" but have different ids removes
only the first one, and deleting user "bob" from a three-user list removes
only that user. -/
theorem c8_delete_removes_exactly_one_witness :
    keywords_after_delete
      [{ id := 1, name := "chess", category_id := 0 },
       { id := 2, name := "chess", category_id := 0 }] 1 =
      [{ id := 2, name := "chess", category_id := 0 }] ∧
    users_after_delete
      [{ id := "a", screen_name := "alice", is_icq := false },
       { id := "b", screen_name := "bob", is_icq := false },
       { id := "c", screen_name := "carol", is_icq := false }] "bob" =
      [{ id := "a", screen_name := "alice", is_icq := false },
       { id := "c", screen_name := "carol", is_icq := false }] := by
  constructor
  · exact c8_delete_removes_exactly_one.2 []
      [{ id := 2, name := "chess", category_id := 0 }]
      { id := 1, name := "chess", category_id := 0 } 1
      (by decide) (by decide) (by decide)
  · exact c8_delete_removes_exactly_one.1
      [{ id := "a", screen_name := "alice", is_icq := false }]
      [{ id := "c", screen_name := "carol", is_icq := false }]
      { id := "b", screen_name := "bob", is_icq := false } "bob"
      (by decide) (by decide) (by decide)

/-- Claim C6: in a render of the item list, the action-button callbacks bound
to row k act on the item that was at row k when it was rendered: pressing any
button of row k after the loop has finished - whatever the final value of the
loop variable - invokes its callback on item k, because the source freezes
the item through lambda default arguments. -/
theorem c6_action_buttons_bind_their_row :
    ∀ {T A : Type} (items : List T) (cfgs : List (ActionButtonConfig T A))
      (k : Nat) (row : RenderedRow T A),
    (renderItemRows items cfgs)[k]? = some row →
    ∀ (v : T), ∃ hk : k < items.length,
      ∀ b ∈ row.buttons,
        RowButton.press crudListCaptureMode b v =
          b.boundCallback (items.get ⟨k, hk⟩) := by
  intro T A items cfgs k row hrow v
  rw [renderItemRows, List.getElem?_map] at hrow
  cases hik : items[k]? with
  | none => rw [hik] at hrow; cases hrow
  | some it =>
    rw [hik] at hrow
    obtain ⟨hk, hget⟩ := List.getElem?_eq_some.mp hik
    refine ⟨hk, ?_⟩
    intro b hb
    obtain rfl := (Option.some.injEq _ _).mp hrow
    simp only at hb
    obtain ⟨cfg, hcfg, hbeq⟩ := List.mem_filterMap.mp hb
    cases hcb : cfg.callback with
    | none => rw [hcb] at hbeq; cases hbeq
    | some cb =>
      rw [hcb] at hbeq
      obtain rfl := (Option.some.injEq _ _).mp hbeq
      show cb it = cb (items.get ⟨k, hk⟩)
      have : items.get ⟨k, hk⟩ = it := by
        simpa using hget
      rw [this]

/-- Witness for claim C6: rendering the three-item list [10, 20, 30] with one
configured action button whose callback doubles its argument, the button of
row 0 pressed after the loop finished (final loop value 30) acts on item 10,
yielding 20 - not on the last item. -/
theorem c6_action_buttons_bind_their_row_witness :
    RowButton.press crudListCaptureMode
      { icon := "material/edit", color := "primary", tooltip := "Action",
        is_sensitive := true, boundItem := 10,
        boundCallback := fun x : Nat => x * 2 } 30 = 20 := by
  obtain ⟨hk, hball⟩ := c6_action_buttons_bind_their_row [10, 20, 30]
    [{ callback := some (fun x : Nat => x * 2) }] 0 _ rfl 30
  have h := hball
    { icon := "material/edit", color := "primary", tooltip := "Action",
      is_sensitive := true, boundItem := 10,
      boundCallback := fun x : Nat => x * 2 }
    (List.mem_singleton_self _)
  simpa using h

/-- Counterexample for claim C1: fetch_users, given a reached server, a 2xx
response and a well-parsed JSON dictionary payload (a shape mismatch, since a
list is expected), returns the failure sentinel None instead of the empty
collection the claim requires. -/
theorem c1_shape_mismatch_counterexample :
    (fetch_users "http://localhost:5000" (FetchOutcome.ok (Json.obj []))).1
      = none ∧
    (fetch_users "http://localhost:5000" (FetchOutcome.ok (Json.obj []))).1
      ≠ some [] := by
  constructor
  · rfl
  · intro h
    cases h.symm.trans (rfl : (fetch_users "http://localhost:5000"
      (FetchOutcome.ok (Json.obj []))).1 = none)

/-- Claim C1 as amended: for chat-room and category fetches a successful
non-list payload yields the empty collection, a successful list payload is
converted when all its elements are objects and yields the sentinel None when
any element is not an object (the conversion raises inside the try block and
the handler returns None), and None is also returned on transport error,
error status and unparseable body; the per-category keyword fetch returns
None exactly on transport error, error status or unparseable body, yields
the empty list for a non-list payload, and on a list payload always succeeds
with the tagged conversion (non-object elements are skipped, never causing
None); fetch_sessions yields the empty list for dictionary payloads without
the expected sessions key and for bare list payloads and returns None for
every other successfully parsed payload shape and on failures (a dictionary
whose sessions value is present but not a list makes the source raise an
uncaught exception - neither an empty collection nor the sentinel - and is
outside this statement); fetch_users returns None for every non-list
payload; and the keyword fetch-all returns an empty list - not the
sentinel - even when the server is entirely unreachable. -/
theorem c1_shape_mismatch_amended (u : String) (hu : u ≠ "")
    (fields kfields : List (String × Json))
    (hf : Json.lookupField fields "sessions" = none)
    (n : Int) (s : String) (bl : Bool) (xs : List Json) (c : Nat) (cid : Int)
    (cr : FetchOutcome) :
    (fetch_chat_rooms u (FetchOutcome.ok (Json.num n))).1 = some [] ∧
    (fetch_sessions u (FetchOutcome.ok (Json.obj fields))).1 = some [] ∧
    (fetch_users u FetchOutcome.unreachable).1 = none ∧
    (fetch_chat_rooms u (FetchOutcome.ok (Json.arr xs))).1 =
      (if xs.all Json.isObj then some (xs.map chatRoomOfJson) else none) ∧
    (fetch_directory_categories u (FetchOutcome.ok (Json.arr xs))).1 =
      (if xs.all Json.isObj then some (xs.map categoryOfJson) else none) ∧
    (fetch_directory_keywords u
      ⟨fun _ => FetchOutcome.ok (Json.arr xs), cr⟩ (some cid)).1 =
      some (convertKeywords (tagWithCategory xs cid)) ∧
    (fetch_chat_rooms u (FetchOutcome.ok (Json.obj fields))).1 = some [] ∧
    (fetch_chat_rooms u (FetchOutcome.ok (Json.str s))).1 = some [] ∧
    (fetch_chat_rooms u (FetchOutcome.ok (Json.bool bl))).1 = some [] ∧
    (fetch_chat_rooms u (FetchOutcome.ok Json.null)).1 = some [] ∧
    (fetch_chat_rooms u FetchOutcome.unreachable).1 = none ∧
    (fetch_chat_rooms u (FetchOutcome.httpError c)).1 = none ∧
    (fetch_chat_rooms u FetchOutcome.badBody).1 = none ∧
    (fetch_directory_categories u (FetchOutcome.ok (Json.obj fields))).1 = some [] ∧
    (fetch_directory_categories u (FetchOutcome.ok (Json.num n))).1 = some [] ∧
    (fetch_directory_categories u (FetchOutcome.ok (Json.str s))).1 = some [] ∧
    (fetch_directory_categories u (FetchOutcome.ok (Json.bool bl))).1 = some [] ∧
    (fetch_directory_categories u (FetchOutcome.ok Json.null)).1 = some [] ∧
    (fetch_directory_categories u FetchOutcome.unreachable).1 = none ∧
    (fetch_directory_categories u (FetchOutcome.httpError c)).1 = none ∧
    (fetch_directory_categories u FetchOutcome.badBody).1 = none ∧
    (fetch_directory_keywords u
      ⟨fun _ => FetchOutcome.ok (Json.obj kfields), cr⟩ (some cid)).1 = some [] ∧
    (fetch_directory_keywords u
      ⟨fun _ => FetchOutcome.ok (Json.num n), cr⟩ (some cid)).1 = some [] ∧
    (fetch_directory_keywords u
      ⟨fun _ => FetchOutcome.ok (Json.str s), cr⟩ (some cid)).1 = some [] ∧
    (fetch_directory_keywords u
      ⟨fun _ => FetchOutcome.ok (Json.bool bl), cr⟩ (some cid)).1 = some [] ∧
    (fetch_directory_keywords u
      ⟨fun _ => FetchOutcome.ok Json.null, cr⟩ (some cid)).1 = some [] ∧
    (fetch_directory_keywords u
      ⟨fun _ => FetchOutcome.unreachable, cr⟩ (some cid)).1 = none ∧
    (fetch_directory_keywords u
      ⟨fun _ => FetchOutcome.httpError c, cr⟩ (some cid)).1 = none ∧
    (fetch_directory_keywords u
      ⟨fun _ => FetchOutcome.badBody, cr⟩ (some cid)).1 = none ∧
    (fetch_sessions u (FetchOutcome.ok (Json.arr xs))).1 = some [] ∧
    (fetch_sessions u (FetchOutcome.ok (Json.num n))).1 = none ∧
    (fetch_sessions u (FetchOutcome.ok (Json.str s))).1 = none ∧
    (fetch_sessions u (FetchOutcome.ok (Json.bool bl))).1 = none ∧
    (fetch_sessions u (FetchOutcome.ok Json.null)).1 = none ∧
    (fetch_sessions u FetchOutcome.unreachable).1 = none ∧
    (fetch_sessions u (FetchOutcome.httpError c)).1 = none ∧
    (fetch_sessions u FetchOutcome.badBody).1 = none ∧
    (fetch_users u (FetchOutcome.ok (Json.obj fields))).1 = none ∧
    (fetch_users u (FetchOutcome.ok (Json.num n))).1 = none ∧
    (fetch_users u (FetchOutcome.ok (Json.str s))).1 = none ∧
    (fetch_users u (FetchOutcome.ok (Json.bool bl))).1 = none ∧
    (fetch_users u (FetchOutcome.ok Json.null)).1 = none ∧
    (fetch_users u (FetchOutcome.httpError c)).1 = none ∧
    (fetch_users u FetchOutcome.badBody).1 = none ∧
    (fetch_directory_keywords u
      ⟨fun _ => FetchOutcome.unreachable, FetchOutcome.unreachable⟩ none).1
      = some [] := by
  and_intros <;>
    cases hobj : xs.all Json.isObj <;>
      simp [fetch_chat_rooms, fetch_directory_categories, fetch_directory_keywords,
        fetch_sessions, fetch_users, fetch_from_api, aggregateKeywordList,
        hu, hf, hobj]

/-- Witness for claim C1: the amended law applied at the default base URL, a
numeric chat-room payload, a sessions dictionary without the expected key, an
unreachable server for the user list, and a chat-room list payload containing
a non-object element, which yields the sentinel None. -/
theorem c1_shape_mismatch_amended_witness :
    (fetch_chat_rooms "http://localhost:5000" (FetchOutcome.ok (Json.num 7))).1
      = some [] ∧
    (fetch_sessions "http://localhost:5000"
      (FetchOutcome.ok (Json.obj [("status", Json.str "ok")]))).1 = some [] ∧
    (fetch_users "http://localhost:5000" FetchOutcome.unreachable).1 = none ∧
    (fetch_chat_rooms "http://localhost:5000"
      (FetchOutcome.ok (Json.arr [Json.num 1]))).1 = none := by
  have h := c1_shape_mismatch_amended "http://localhost:5000" (by decide)
    [("status", Json.str "ok")] [] rfl 7 "x" true [Json.num 1] 404 3
    FetchOutcome.unreachable
  refine ⟨h.1, h.2.1, h.2.2.1, ?_⟩
  rw [h.2.2.2.1]
  rfl

/-- Counterexample for claim C4: delete_chat_room answers a 202 Accepted
response - a 2xx status - with False, because it checks the literal pair
(200, 204) instead of the 2xx range. -/
theorem c4_2xx_counterexample :
    (delete_chat_room "http://localhost:5000" "lobby" (WriteOutcome.status 202)).1
      = false ∧ is2xx 202 = true := ⟨rfl, rfl⟩

/-- Claim C4 as amended: a transport failure and every non-2xx status make
every write operation return False; the create operations and the
instant-message send succeed on exactly the 2xx range (via
raise_for_status); the delete, password-reset and status-update operations
succeed on exactly the statuses 200 and 204, rejecting every other 2xx
status. -/
theorem c4_write_status_amended (u : String) (hu : u ≠ "") (c : Nat)
    (sn pw nm txt : String) (i : Int) (st : Option String) :
    (create_user u sn pw (WriteOutcome.status c)).1 = is2xx c ∧
    (delete_user u sn (WriteOutcome.status c)).1 = (c == 200 || c == 204) ∧
    (create_chat_room u nm (WriteOutcome.status c)).1 = is2xx c ∧
    (create_directory_category u nm (WriteOutcome.status c)).1 = is2xx c ∧
    (create_directory_keyword u nm i (WriteOutcome.status c)).1 = is2xx c ∧
    (send_instant_message u sn sn txt (WriteOutcome.status c)).1 = is2xx c ∧
    (delete_chat_room u nm (WriteOutcome.status c)).1 = (c == 200 || c == 204) ∧
    (delete_directory_category u i (WriteOutcome.status c)).1
      = (c == 200 || c == 204) ∧
    (delete_directory_keyword u i (WriteOutcome.status c)).1
      = (c == 200 || c == 204) ∧
    (reset_user_password u sn pw (WriteOutcome.status c)).1
      = (c == 200 || c == 204) ∧
    (update_user_status u sn st (WriteOutcome.status c)).1
      = (c == 200 || c == 204) ∧
    (create_user u sn pw WriteOutcome.unreachable).1 = false ∧
    (delete_user u sn WriteOutcome.unreachable).1 = false ∧
    (create_chat_room u nm WriteOutcome.unreachable).1 = false ∧
    (create_directory_category u nm WriteOutcome.unreachable).1 = false ∧
    (create_directory_keyword u nm i WriteOutcome.unreachable).1 = false ∧
    (send_instant_message u sn sn txt WriteOutcome.unreachable).1 = false ∧
    (delete_chat_room u nm WriteOutcome.unreachable).1 = false ∧
    (delete_directory_category u i WriteOutcome.unreachable).1 = false ∧
    (delete_directory_keyword u i WriteOutcome.unreachable).1 = false ∧
    (reset_user_password u sn pw WriteOutcome.unreachable).1 = false ∧
    (update_user_status u sn st WriteOutcome.unreachable).1 = false := by
  have hupd : (update_user_status u sn st (WriteOutcome.status c)).1
      = (c == 200 || c == 204) := by
    cases h : is2xx c with
    | true => simp [update_user_status, hu, h]
    | false =>
      have h2 : ¬ (200 ≤ c ∧ c < 300) := by simpa [is2xx] using h
      have e1 : c ≠ 200 := by omega
      have e2 : c ≠ 204 := by omega
      simp [update_user_status, hu, h, e1, e2]
  and_intros <;>
    first
    | exact hupd
    | simp [create_user, delete_user, create_chat_room, create_directory_category,
        create_directory_keyword, send_instant_message, delete_chat_room,
        delete_directory_category, delete_directory_keyword, reset_user_password,
        update_user_status, hu]

/-- Witness for claim C4: at the default base URL, a 201 Created response
makes create_user succeed but delete_user fail. -/
theorem c4_write_status_amended_witness :
    (create_user "http://localhost:5000" "alice" "pw" (WriteOutcome.status 201)).1
      = true ∧
    (delete_user "http://localhost:5000" "alice" (WriteOutcome.status 201)).1
      = false := by
  have h := c4_write_status_amended "http://localhost:5000" (by decide) 201
    "alice" "pw" "room" "hello" 3 none
  constructor
  · rw [h.1]; rfl
  · rw [h.2.1]; rfl

/-- Every keyword converted from a per-category response tagged by
tagWithCategory carries the tagging category id, whatever the payload said. -/
theorem mem_convertKeywords_tag {k : Keyword} {elems : List Json} {i : Int}
    (hk : k ∈ convertKeywords (tagWithCategory elems i)) : k.category_id = i := by
  obtain ⟨j, hj, hkj⟩ := List.mem_filterMap.mp hk
  obtain ⟨j0, hj0, hj0eq⟩ := List.mem_filterMap.mp hj
  cases j0 with
  | obj f0 =>
      simp only [tagWithCategory] at hj0eq
      obtain rfl := (Option.some.injEq _ _).mp hj0eq
      simp only [convertKeywords] at hkj
      obtain rfl := (Option.some.injEq _ _).mp hkj
      simp [keywordOfJson, keywordCategoryId, Json.setField, Json.lookupField,
        Json.asIntD]
  | null => cases hj0eq
  | bool b => cases hj0eq
  | num n => cases hj0eq
  | str s => cases hj0eq
  | arr xs => cases hj0eq

/-- Keyword conversion distributes over concatenation of the per-category
blocks. -/
theorem convertKeywords_flatten (ls : List (List Json)) :
    convertKeywords ls.flatten = (ls.map convertKeywords).flatten := by
  induction ls with
  | nil => rfl
  | cons h t ih => simp [convertKeywords, List.filterMap_append] at ih ⊢; rw [ih]

/-- Claim C2: with no category argument, fetch_directory_keywords first tries
the aggregate category-0 endpoint and, when that returns a non-empty JSON
list, converts and returns exactly those keywords; when the aggregate
endpoint yields nothing (error, non-list, or empty list), the result is
exactly the concatenation, over the fetched categories in order, of each
category's converted keyword block - and every keyword of category c's block
carries c.id as its category_id, the id of the category it was fetched from,
whatever the payload said for that field. -/
theorem c2_keyword_fetch_all_strategies (u : String) (srv : DirServer)
    (hu : u ≠ "") :
    (∀ xs : List Json, srv.keywordResp 0 = FetchOutcome.ok (Json.arr xs) →
      xs ≠ [] →
      (fetch_directory_keywords u srv none).1 = some (convertKeywords xs)) ∧
    ((∀ xs : List Json, srv.keywordResp 0 = FetchOutcome.ok (Json.arr xs) →
        xs = []) →
      (fetch_directory_keywords u srv none).1 =
        some ((((fetch_directory_categories u srv.categoriesResp).1.getD []).map
          (fun c => convertKeywords (categoryKeywordBlock srv c))).flatten)) ∧
    (∀ (c : Category) (k : Keyword),
      k ∈ convertKeywords (categoryKeywordBlock srv c) → k.category_id = c.id) := by
  refine ⟨?_, ?_, ?_⟩
  · intro xs h hne
    have hagg : aggregateKeywordList srv = xs := by
      simp [aggregateKeywordList, h]
    cases xs with
    | nil => exact absurd rfl hne
    | cons a as => simp [fetch_directory_keywords, hu, hagg]
  · intro hempty
    have hagg : aggregateKeywordList srv = [] := by
      unfold aggregateKeywordList
      cases hr : srv.keywordResp 0 with
      | ok body =>
          cases body with
          | arr xs => exact hempty xs hr
          | null => rfl
          | bool b => rfl
          | num n => rfl
          | str s => rfl
          | obj fields => rfl
      | unreachable => rfl
      | httpError code => rfl
      | badBody => rfl
    rcases hc : fetch_directory_categories u srv.categoriesResp with ⟨res, clog⟩
    cases res with
    | none => simp [fetch_directory_keywords, hu, hagg, hc]
    | some cats =>
        cases cats with
        | nil => simp [fetch_directory_keywords, hu, hagg, hc]
        | cons a as =>
            simp only [fetch_directory_keywords, if_neg hu, hagg, hc,
              List.isEmpty_cons, Option.getD_some]
            rw [convertKeywords_flatten, List.map_map]
            rfl
  · intro c k hk
    unfold categoryKeywordBlock at hk
    cases hr : srv.keywordResp c.id with
    | ok body =>
        cases body with
        | arr elems =>
            rw [hr] at hk
            exact mem_convertKeywords_tag hk
        | null => rw [hr] at hk; cases hk
        | bool b => rw [hr] at hk; cases hk
        | num n => rw [hr] at hk; cases hk
        | str s => rw [hr] at hk; cases hk
        | obj fields => rw [hr] at hk; cases hk
    | unreachable => rw [hr] at hk; cases hk
    | httpError code => rw [hr] at hk; cases hk
    | badBody => rw [hr] at hk; cases hk

/-- Witness for claim C2: a server whose aggregate endpoint returns one
keyword makes the fetch-all return exactly its conversion; a server whose
aggregate endpoint returns an empty list and whose single fetched category
has id 5 yields, through the per-category fallback, exactly that category's
keyword tagged with category_id 5 - even though the payload carried no
category_id field. -/
theorem c2_keyword_fetch_all_strategies_witness :
    (fetch_directory_keywords "http://localhost:5000"
      ⟨fun _ => FetchOutcome.ok
          (Json.arr [Json.obj [("id", Json.num 7), ("name", Json.str "chess")]]),
        FetchOutcome.unreachable⟩ none).1
      = some (convertKeywords
          [Json.obj [("id", Json.num 7), ("name", Json.str "chess")]]) ∧
    (fetch_directory_keywords "http://localhost:5000"
      ⟨fun i => if i == 0 then FetchOutcome.ok (Json.arr [])
        else FetchOutcome.ok (Json.arr [Json.obj [("id", Json.num 9)]]),
        FetchOutcome.ok
          (Json.arr [Json.obj [("id", Json.num 5), ("name", Json.str "Games")]])⟩
      none).1 = some [{ id := 9, name := "", category_id := 5 }] := by
  constructor
  · exact (c2_keyword_fetch_all_strategies "http://localhost:5000" _
      (by decide)).1
      [Json.obj [("id", Json.num 7), ("name", Json.str "chess")]] rfl (by simp)
  · have h := (c2_keyword_fetch_all_strategies "http://localhost:5000"
      ⟨fun i => if i == 0 then FetchOutcome.ok (Json.arr [])
        else FetchOutcome.ok (Json.arr [Json.obj [("id", Json.num 9)]]),
        FetchOutcome.ok
          (Json.arr [Json.obj [("id", Json.num 5), ("name", Json.str "Games")]])⟩
      (by decide)).2.1 (by
        intro xs hx
        have h2 : FetchOutcome.ok (Json.arr ([] : List Json))
            = FetchOutcome.ok (Json.arr xs) := hx
        injection h2 with h3
        injection h3 with h4
        exact h4.symm)
    rw [h]
    rfl
